import Mathlib

/-!
Shallow embedding of `src/file_classification.py` (GIDE-LATAM-UTDT), a single-file
Gradio tool that extracts text from an uploaded PDF, renders a Jinja template selected
by a classification characteristic key, sends the rendered prompt to a chat-completion
API and displays the text of the first candidate.

External effects are made explicit:
  * the PDF library is an environment `pdfs` mapping a filename to its parse result
    (`none` means the file does not parse as a PDF);
  * the remote chat client is a function from the request to an `Except` response;
  * side effects are recorded in a trace of `Event`s (extraction touched a file,
    a chat request was sent), so ordering and call-count properties are statable;
  * a Python exception escaping a function is an `Except.error`.
-/

namespace FileClassification

/-- A chat message as built at `src/file_classification.py` lines 95-104:
a role string and a content string. -/
structure ChatMessage where
  role : String
  content : String
deriving DecidableEq

/-- The request sent by `client.chat.completions.create` (lines 93-106):
a model name, the message list and the `max_tokens` output-length cap. -/
structure ChatRequest where
  model : String
  messages : List ChatMessage
  max_tokens : Nat
deriving DecidableEq

/-- One candidate of the API response (`response.choices[i]`). -/
structure Choice where
  message : ChatMessage
deriving DecidableEq

/-- The API response: a list of candidates (`response.choices`). -/
structure ChatResponse where
  choices : List Choice
deriving DecidableEq

/-- Observable side effects of one pipeline run. -/
inductive Event where
  | extract (filename : String)
  | clientCall (req : ChatRequest)
deriving DecidableEq

/-- `Event.isClientCall ev` holds exactly on chat-request events. -/
def Event.isClientCall : Event → Bool
  | Event.clientCall _ => true
  | _ => false

/-- Errors a pipeline run can raise (Python exceptions escaping `process_prompt`). -/
inductive Err where
  | documentRead
  | unsupportedCharacteristic (key : String)
  | classificationFailed
  | indexOutOfRange
deriving DecidableEq

/-- The uploaded file object handed to the handler by the UI; the code only
reads its `.name` attribute (line 80). -/
structure Document where
  name : String
deriving DecidableEq

/-- The `CharacteristicDefinition` dataclass (lines 30-34). -/
structure CharacteristicDefinition where
  name : String
  template_filename : String
  info : String
deriving DecidableEq

/-- Modelled from the spec: the template resources under `templates/`
(`1a1_prompt.jinja`, `2a1_prompt.jinja`, `3a1_prompt.jinja`) are not part of the
source tree. Per the spec each is a fixed non-empty text with a single recognized
placeholder for the extracted document text; a template is modelled as the text
standing before and after that placeholder. -/
structure Template where
  before : String
  after : String
deriving DecidableEq

/-- Modelled from the spec: rendering substitutes the extracted text into the
template at its single recognized placeholder (line 90,
`template.render(document_text=document_text)`). -/
def Template.render (t : Template) (document_text : String) : String :=
  t.before ++ document_text ++ t.after

/-- The fixed system instruction `SYSTEM_PROMPT` (lines 21-22). -/
def SYSTEM_PROMPT : String :=
  "You are an expert legal document assistant who helps generate professional legal documents.\nAnalyze the user\x27s requirements and enhance them with proper legal language and structure."

/-- The static table `CHARACTERISTIC_DEFINITIONS` (lines 37-53), as an
association list in source order. -/
def CHARACTERISTIC_DEFINITIONS : List (String × CharacteristicDefinition) :=
  [("1a1", ⟨"1a1", "1a1_prompt.jinja", "Classification type 1a1 for legal documents"⟩),
   ("2a1", ⟨"2a1", "2a1_prompt.jinja", "Classification type 2a1 for legal documents"⟩),
   ("3a1", ⟨"3a1", "3a1_prompt.jinja", "Classification type 3a1 for legal documents"⟩)]

/-- `DEFAULT_CHARACTERISTIC` (line 60). -/
def DEFAULT_CHARACTERISTIC : String := "1a1"

/-- `CHARACTERISTIC_CHOICES` (line 61): the keys of the definition table. -/
def CHARACTERISTIC_CHOICES : List String :=
  CHARACTERISTIC_DEFINITIONS.map Prod.fst

/-- Modelled from the spec: the concrete template resources are absent from the
source tree; each is a fixed non-empty text whose single placeholder receives the
extracted document text. -/
def tpl_1a1 : Template :=
  ⟨"Classify the following legal document under characteristic 1a1.\n\nDocument text:\n", ""⟩

/-- Modelled from the spec: see `tpl_1a1`. -/
def tpl_2a1 : Template :=
  ⟨"Classify the following legal document under characteristic 2a1.\n\nDocument text:\n", ""⟩

/-- Modelled from the spec: see `tpl_1a1`. -/
def tpl_3a1 : Template :=
  ⟨"Classify the following legal document under characteristic 3a1.\n\nDocument text:\n", ""⟩

/-- Modelled from the spec: the template directory contents, mapping each template
filename to its (non-empty) template resource. -/
def spec_templates : List (String × Template) :=
  [("1a1_prompt.jinja", tpl_1a1),
   ("2a1_prompt.jinja", tpl_2a1),
   ("3a1_prompt.jinja", tpl_3a1)]

/-- Start-up construction of the prompt-template table generalized over the
definition table: for each definition, resolve its template file against the
available resources (`jinja_env.get_template`); a missing resource aborts the
construction with the offending filename (jinja `TemplateNotFound` at import
time). Embeds the dict comprehension at lines 55-58. -/
def build_templates_from (defs : List (String × CharacteristicDefinition))
    (avail : List (String × Template)) :
    Except String (List (String × Template)) :=
  defs.foldr
    (fun p acc =>
      match List.lookup p.2.template_filename avail, acc with
      | none, _ => Except.error p.2.template_filename
      | some _, Except.error e => Except.error e
      | some t, Except.ok reg => Except.ok ((p.1, t) :: reg))
    (Except.ok [])

/-- `PROMPT_TEMPLATES` construction (lines 55-58) over given template resources. -/
def build_prompt_templates (avail : List (String × Template)) :
    Except String (List (String × Template)) :=
  build_templates_from CHARACTERISTIC_DEFINITIONS avail

/-- The module-level `PROMPT_TEMPLATES` table: the result of the start-up
construction over the (spec-modelled) template directory. In Python the module
only finishes loading when the construction succeeded; the error branch here is
dead (see `C5_startup_registry`). -/
def PROMPT_TEMPLATES : List (String × Template) :=
  match build_prompt_templates spec_templates with
  | Except.ok reg => reg
  | Except.error _ => []

/-- The PDF-reading step of `process_prompt` (lines 77-82): with no file, the
document text is the empty string; with a file, parse it (`PdfReader`) and
concatenate the extracted text of every page in order via repeated `+=`; a file
that does not parse raises a document-read error. The trace records that
extraction touched the file. -/
def extract_document_text (pdfs : List (String × Option (List String)))
    (document_file : Option Document) : List Event × Except Err String :=
  match document_file with
  | none => ([], Except.ok "")
  | some f =>
    match List.lookup f.name pdfs with
    | some (some pages) => ([Event.extract f.name], Except.ok (pages.foldl (· ++ ·) ""))
    | _ => ([Event.extract f.name], Except.error Err.documentRead)

/-- The request built at lines 93-106: model `"gpt-4o"`, the fixed system
instruction plus the single rendered user message, and `max_tokens=2000`. -/
def chat_request (user_content : String) : ChatRequest :=
  ⟨"gpt-4o", [⟨"system", SYSTEM_PROMPT⟩, ⟨"user", user_content⟩], 2000⟩

/-- `process_prompt` (lines 72-108): extract the document text, look the key up
in `PROMPT_TEMPLATES` (a missing key raises `ValueError: Unsupported
characteristic: ...`), render the template, send one chat request and return the
text of the first candidate (`response.choices[0].message.content`; an empty
candidate list raises `IndexError`). `chat` is the remote client; a failing
remote call raises a classification failure. -/
def process_prompt (registry : List (String × Template))
    (chat : ChatRequest → Except Unit ChatResponse)
    (pdfs : List (String × Option (List String)))
    (document_file : Option Document) (characteristic : String) :
    List Event × Except Err String :=
  match extract_document_text pdfs document_file with
  | (evs, Except.error e) => (evs, Except.error e)
  | (evs, Except.ok document_text) =>
    match List.lookup characteristic registry with
    | none => (evs, Except.error (Err.unsupportedCharacteristic characteristic))
    | some tpl =>
      match chat (chat_request (tpl.render document_text)) with
      | Except.error _ =>
        (evs ++ [Event.clientCall (chat_request (tpl.render document_text))],
         Except.error Err.classificationFailed)
      | Except.ok response =>
        match response.choices with
        | [] =>
          (evs ++ [Event.clientCall (chat_request (tpl.render document_text))],
           Except.error Err.indexOutOfRange)
        | c :: _ =>
          (evs ++ [Event.clientCall (chat_request (tpl.render document_text))],
           Except.ok c.message.content)

/-- `generate_prompt_handler` (lines 111-126): with no file, return the fixed
error string without calling anything; otherwise run `process_prompt` — with no
enclosing try/except, so any error it raises escapes the handler — and format
the success string of line 125. -/
def generate_prompt_handler (registry : List (String × Template))
    (chat : ChatRequest → Except Unit ChatResponse)
    (pdfs : List (String × Option (List String)))
    (document_file : Option Document) (current_characteristic : String) :
    List Event × Except Err String :=
  match document_file with
  | none => ([], Except.ok "Error: Please upload a document.")
  | some _ =>
    match process_prompt registry chat pdfs document_file current_characteristic with
    | (evs, Except.ok prompt_text) =>
      (evs, Except.ok ("Selected characteristic: " ++ current_characteristic
        ++ "\n\n" ++ prompt_text))
    | (evs, Except.error e) => (evs, Except.error e)

/-- The extraction step touches exactly the supplied file: its trace is the
single extraction event, whether or not the file parses. -/
lemma extract_trace_some (pdfs : List (String × Option (List String))) (f : Document) :
    (extract_document_text pdfs (some f)).1 = [Event.extract f.name] := by
  unfold extract_document_text
  rcases h : List.lookup f.name pdfs with _ | (_ | pages) <;> simp [h]

/-- The extraction step never sends a chat request. -/
lemma extract_no_clientCall (pdfs : List (String × Option (List String)))
    (document_file : Option Document) (req : ChatRequest) :
    Event.clientCall req ∉ (extract_document_text pdfs document_file).1 := by
  cases document_file with
  | none => simp [extract_document_text]
  | some f => rw [extract_trace_some]; simp

/-- C2: with `document_file = None` the handler returns the fixed error string
immediately: its trace is empty (no extraction, no chat request) and the result
does not depend on the template registry, the remote client or the PDF
environment (no template lookup or rendering happens). -/
theorem C2_no_file (registry : List (String × Template))
    (chat : ChatRequest → Except Unit ChatResponse)
    (pdfs : List (String × Option (List String))) (key : String) :
    generate_prompt_handler registry chat pdfs none key =
      ([], Except.ok "Error: Please upload a document.") := rfl

/-- C3: a characteristic key missing from the template registry makes
`process_prompt` fail with the unsupported-characteristic error carrying the
offending key (never a rendered default template), whenever the extraction step
itself succeeded and the key lookup is reached. -/
theorem C3_unsupported_key (registry : List (String × Template))
    (chat : ChatRequest → Except Unit ChatResponse)
    (pdfs : List (String × Option (List String)))
    (document_file : Option Document) (key txt : String)
    (hext : (extract_document_text pdfs document_file).2 = Except.ok txt)
    (hkey : List.lookup key registry = none) :
    (process_prompt registry chat pdfs document_file key).2 =
      Except.error (Err.unsupportedCharacteristic key) := by
  rcases he : extract_document_text pdfs document_file with ⟨evs, r⟩
  rw [he] at hext
  unfold process_prompt
  rw [he]
  cases r with
  | error e => simp at hext
  | ok d => rw [hkey]

/-- C3 witness: the concrete key `9z9` is not registered and makes
`process_prompt` fail with the unsupported-characteristic error. -/
theorem C3_unsupported_key_witness :
    (process_prompt PROMPT_TEMPLATES (fun _ => Except.error ()) [] none "9z9").2 =
      Except.error (Err.unsupportedCharacteristic "9z9") :=
  C3_unsupported_key PROMPT_TEMPLATES (fun _ => Except.error ()) [] none "9z9" "" rfl rfl

/-- C4: when a file is supplied and `process_prompt` returns classification
text `t`, the handler returns exactly
`"Selected characteristic: " ++ key ++ "\n\n" ++ t`. -/
theorem C4_output_format (registry : List (String × Template))
    (chat : ChatRequest → Except Unit ChatResponse)
    (pdfs : List (String × Option (List String)))
    (f : Document) (key t : String)
    (h : (process_prompt registry chat pdfs (some f) key).2 = Except.ok t) :
    (generate_prompt_handler registry chat pdfs (some f) key).2 =
      Except.ok ("Selected characteristic: " ++ key ++ "\n\n" ++ t) := by
  rcases hp : process_prompt registry chat pdfs (some f) key with ⟨evs, r⟩
  rw [hp] at h
  unfold generate_prompt_handler
  rw [hp]
  cases r with
  | error e => simp at h
  | ok t2 =>
    have ht : t2 = t := by simpa using h
    rw [ht]

/-- C4 witness: a stubbed client returning `CLASSIFIED: Contract` yields the
expected formatted output for the default key. -/
theorem C4_output_format_witness :
    (generate_prompt_handler PROMPT_TEMPLATES
      (fun _ => Except.ok ⟨[⟨⟨"assistant", "CLASSIFIED: Contract"⟩⟩]⟩)
      [("doc.pdf", some ["Sample Clause 1"])] (some ⟨"doc.pdf"⟩) "1a1").2 =
      Except.ok ("Selected characteristic: " ++ "1a1" ++ "\n\n" ++ "CLASSIFIED: Contract") :=
  C4_output_format PROMPT_TEMPLATES
    (fun _ => Except.ok ⟨[⟨⟨"assistant", "CLASSIFIED: Contract"⟩⟩]⟩)
    [("doc.pdf", some ["Sample Clause 1"])] ⟨"doc.pdf"⟩ "1a1" "CLASSIFIED: Contract" rfl

/-- C1 counterexample: with a file supplied and a failing remote client, the
handler does not return a displayed error string — the failure escapes
`generate_prompt_handler` as an error (there is no try/except around
`process_prompt`), so the handler result is `Except.ok s` for no string `s`. -/
theorem C1_counterexample :
    (generate_prompt_handler PROMPT_TEMPLATES (fun _ => Except.error ())
      [("doc.pdf", some ["Sample Clause 1"])] (some ⟨"doc.pdf"⟩) "1a1").2 =
      Except.error Err.classificationFailed ∧
    ∀ s : String,
      (generate_prompt_handler PROMPT_TEMPLATES (fun _ => Except.error ())
        [("doc.pdf", some ["Sample Clause 1"])] (some ⟨"doc.pdf"⟩) "1a1").2 ≠
        Except.ok s := by
  have h1 : (generate_prompt_handler PROMPT_TEMPLATES (fun _ => Except.error ())
      [("doc.pdf", some ["Sample Clause 1"])] (some ⟨"doc.pdf"⟩) "1a1").2 =
      Except.error Err.classificationFailed := rfl
  refine ⟨h1, fun s h => ?_⟩
  rw [h1] at h
  exact Except.noConfusion h

/-- C1 (amended): a failure raised by any sub-call of `process_prompt`
propagates out of `generate_prompt_handler` unchanged (to be handled, if at
all, by the UI framework); the handler does not turn it into a returned error
string — only the missing-file check returns one. -/
theorem C1_error_propagates (registry : List (String × Template))
    (chat : ChatRequest → Except Unit ChatResponse)
    (pdfs : List (String × Option (List String)))
    (f : Document) (key : String) (e : Err)
    (h : (process_prompt registry chat pdfs (some f) key).2 = Except.error e) :
    (generate_prompt_handler registry chat pdfs (some f) key).2 = Except.error e := by
  rcases hp : process_prompt registry chat pdfs (some f) key with ⟨evs, r⟩
  rw [hp] at h
  unfold generate_prompt_handler
  rw [hp]
  cases r with
  | error e2 => simpa using h
  | ok t => simp at h

/-- C1 (amended) witness: a failing remote call escapes the handler as the
classification-failure error. -/
theorem C1_error_propagates_witness :
    (generate_prompt_handler PROMPT_TEMPLATES (fun _ => Except.error ())
      [("a.pdf", some ["text"])] (some ⟨"a.pdf"⟩) "2a1").2 =
      Except.error Err.classificationFailed :=
  C1_error_propagates PROMPT_TEMPLATES (fun _ => Except.error ())
    [("a.pdf", some ["text"])] ⟨"a.pdf"⟩ "2a1" Err.classificationFailed rfl

/-- If the template file of any definition is missing from the available resources,
the start-up construction aborts with an error (jinja `TemplateNotFound` during
the dict comprehension, i.e. at module import time). -/
lemma build_templates_from_missing (defs : List (String × CharacteristicDefinition))
    (avail : List (String × Template)) (d : String × CharacteristicDefinition)
    (hd : d ∈ defs) (hmiss : List.lookup d.2.template_filename avail = none) :
    ∃ fname, build_templates_from defs avail = Except.error fname := by
  induction defs with
  | nil => cases hd
  | cons p rest ih =>
    rcases List.mem_cons.mp hd with rfl | hd2
    · exact ⟨d.2.template_filename, by simp [build_templates_from, hmiss]⟩
    · obtain ⟨fname, hf⟩ := ih hd2
      unfold build_templates_from at hf ⊢
      rw [List.foldr_cons, hf]
      rcases hl : List.lookup p.2.template_filename avail with _ | t
      · exact ⟨p.2.template_filename, rfl⟩
      · exact ⟨fname, rfl⟩

/-- C5: at start-up, every key offered to the user has exactly one
`CharacteristicDefinition` and exactly one resolved template in
`PROMPT_TEMPLATES`, whose (spec-modelled) text is non-empty (it renders to a
non-empty string even on empty input); the table is the pure result of the one
start-up construction; and a missing template resource makes that construction
fail before any request is served. -/
theorem C5_startup_registry (key : String) (h : key ∈ CHARACTERISTIC_CHOICES) :
    CHARACTERISTIC_DEFINITIONS.countP (fun p => p.1 == key) = 1 ∧
    (∃ t, List.lookup key PROMPT_TEMPLATES = some t ∧ t.render "" ≠ "") ∧
    PROMPT_TEMPLATES.countP (fun p => p.1 == key) = 1 ∧
    build_prompt_templates spec_templates = Except.ok PROMPT_TEMPLATES ∧
    (∀ avail : List (String × Template), ∀ d ∈ CHARACTERISTIC_DEFINITIONS,
      List.lookup d.2.template_filename avail = none →
      ∃ fname, build_prompt_templates avail = Except.error fname) := by
  have fail_fast : ∀ avail : List (String × Template), ∀ d ∈ CHARACTERISTIC_DEFINITIONS,
      List.lookup d.2.template_filename avail = none →
      ∃ fname, build_prompt_templates avail = Except.error fname := by
    intro avail d hd hmiss
    exact build_templates_from_missing CHARACTERISTIC_DEFINITIONS avail d hd hmiss
  have h3 : key = "1a1" ∨ key = "2a1" ∨ key = "3a1" := by
    simpa [CHARACTERISTIC_CHOICES, CHARACTERISTIC_DEFINITIONS] using h
  rcases h3 with rfl | rfl | rfl
  · exact ⟨by decide, ⟨tpl_1a1, rfl, by decide⟩, by decide, rfl, fail_fast⟩
  · exact ⟨by decide, ⟨tpl_2a1, rfl, by decide⟩, by decide, rfl, fail_fast⟩
  · exact ⟨by decide, ⟨tpl_3a1, rfl, by decide⟩, by decide, rfl, fail_fast⟩

/-- C5 witness: the invariant instantiated at the concrete key `1a1`. -/
theorem C5_startup_registry_witness :
    "1a1" ∈ CHARACTERISTIC_CHOICES ∧
    (CHARACTERISTIC_DEFINITIONS.countP (fun p => p.1 == "1a1") = 1 ∧
     (∃ t, List.lookup "1a1" PROMPT_TEMPLATES = some t ∧ t.render "" ≠ "") ∧
     PROMPT_TEMPLATES.countP (fun p => p.1 == "1a1") = 1 ∧
     build_prompt_templates spec_templates = Except.ok PROMPT_TEMPLATES ∧
     (∀ avail : List (String × Template), ∀ d ∈ CHARACTERISTIC_DEFINITIONS,
       List.lookup d.2.template_filename avail = none →
       ∃ fname, build_prompt_templates avail = Except.error fname)) :=
  ⟨by decide, C5_startup_registry "1a1" (by decide)⟩

/-- C6: for a parseable supplied file, the extraction step produces the
concatenation of the page texts in page order with no separator
(`String.join`); with no file it produces the empty string. -/
theorem C6_extraction (pdfs : List (String × Option (List String)))
    (f : Document) (pages : List String)
    (h : List.lookup f.name pdfs = some (some pages)) :
    (extract_document_text pdfs (some f)).2 = Except.ok (String.join pages) ∧
    extract_document_text pdfs none = ([], Except.ok "") := by
  refine ⟨?_, rfl⟩
  simp [extract_document_text, h, String.join]

/-- C6 witness: a two-page PDF extracts to the separator-free concatenation of
its pages. -/
theorem C6_extraction_witness :
    (extract_document_text [("a.pdf", some ["p1", "p2"])] (some ⟨"a.pdf"⟩)).2 =
      Except.ok (String.join ["p1", "p2"]) ∧
    extract_document_text [("a.pdf", some ["p1", "p2"])] none = ([], Except.ok "") :=
  C6_extraction [("a.pdf", some ["p1", "p2"])] ⟨"a.pdf"⟩ ["p1", "p2"] rfl

/-- C7: on a successful run, `process_prompt` sends exactly one chat request —
the fixed system instruction plus the single rendered user message, with the
`max_tokens` cap set to 2000 — and returns the text content of the first
candidate of the response. -/
theorem C7_single_client_call (registry : List (String × Template))
    (chat : ChatRequest → Except Unit ChatResponse)
    (pdfs : List (String × Option (List String)))
    (document_file : Option Document) (key txt : String) (evs : List Event)
    (tpl : Template) (resp : ChatResponse) (c : Choice) (cs : List Choice)
    (hext : extract_document_text pdfs document_file = (evs, Except.ok txt))
    (htpl : List.lookup key registry = some tpl)
    (hchat : chat (chat_request (tpl.render txt)) = Except.ok resp)
    (hch : resp.choices = c :: cs) :
    process_prompt registry chat pdfs document_file key =
      (evs ++ [Event.clientCall (chat_request (tpl.render txt))],
        Except.ok c.message.content) ∧
    (chat_request (tpl.render txt)).messages =
      [⟨"system", SYSTEM_PROMPT⟩, ⟨"user", tpl.render txt⟩] ∧
    (chat_request (tpl.render txt)).max_tokens = 2000 ∧
    (evs ++ [Event.clientCall (chat_request (tpl.render txt))]).countP
      Event.isClientCall = 1 := by
  have hno : ∀ req, Event.clientCall req ∉ evs := by
    intro req
    have h2 := extract_no_clientCall pdfs document_file req
    rw [hext] at h2
    exact h2
  refine ⟨?_, rfl, rfl, ?_⟩
  · simp [process_prompt, hext, htpl, hchat, hch]
  · rw [List.countP_append]
    have h0 : evs.countP Event.isClientCall = 0 := by
      rw [List.countP_eq_zero]
      intro ev hev
      cases ev with
      | extract fn => simp [Event.isClientCall]
      | clientCall req => exact absurd hev (hno req)
    rw [h0]
    simp [List.countP_cons, Event.isClientCall]

/-- C7 witness: concrete successful run with a one-page PDF, the registered key
`1a1` and a stub client with a single candidate. -/
theorem C7_single_client_call_witness :
    process_prompt PROMPT_TEMPLATES (fun _ => Except.ok ⟨[⟨⟨"assistant", "R"⟩⟩]⟩)
        [("a.pdf", some ["Hello"])] (some ⟨"a.pdf"⟩) "1a1" =
      ([Event.extract "a.pdf"] ++ [Event.clientCall (chat_request (tpl_1a1.render "Hello"))],
        Except.ok "R") ∧
    (chat_request (tpl_1a1.render "Hello")).messages =
      [⟨"system", SYSTEM_PROMPT⟩, ⟨"user", tpl_1a1.render "Hello"⟩] ∧
    (chat_request (tpl_1a1.render "Hello")).max_tokens = 2000 ∧
    ([Event.extract "a.pdf"] ++ [Event.clientCall (chat_request (tpl_1a1.render "Hello"))]).countP
      Event.isClientCall = 1 :=
  C7_single_client_call PROMPT_TEMPLATES (fun _ => Except.ok ⟨[⟨⟨"assistant", "R"⟩⟩]⟩)
    [("a.pdf", some ["Hello"])] (some ⟨"a.pdf"⟩) "1a1" "Hello" [Event.extract "a.pdf"]
    tpl_1a1 ⟨[⟨⟨"assistant", "R"⟩⟩]⟩ ⟨⟨"assistant", "R"⟩⟩ [] rfl rfl rfl rfl

/-- C8: for every registered key and every extracted document text (the empty
string included), the rendered prompt contains the extracted text verbatim as a
contiguous substring — unaltered and untruncated. -/
theorem C8_verbatim_text (key txt : String) (tpl : Template)
    (h : List.lookup key PROMPT_TEMPLATES = some tpl) :
    ∃ l r, tpl.render txt = l ++ txt ++ r :=
  ⟨tpl.before, tpl.after, rfl⟩

/-- C8 witness: the template registered for `1a1` renders `Hello World` as a
verbatim contiguous substring. -/
theorem C8_verbatim_text_witness :
    List.lookup "1a1" PROMPT_TEMPLATES = some tpl_1a1 ∧
    ∃ l r, tpl_1a1.render "Hello World" = l ++ "Hello World" ++ r :=
  ⟨rfl, C8_verbatim_text "1a1" "Hello World" tpl_1a1 rfl⟩

/-- C9: an empty candidate list in the remote response makes `process_prompt`
fail with the index-out-of-range fault of the unguarded `response.choices[0]`,
not with the generic classification-failure error. -/
theorem C9_empty_candidates (registry : List (String × Template))
    (chat : ChatRequest → Except Unit ChatResponse)
    (pdfs : List (String × Option (List String)))
    (document_file : Option Document) (key txt : String) (evs : List Event)
    (tpl : Template) (resp : ChatResponse)
    (hext : extract_document_text pdfs document_file = (evs, Except.ok txt))
    (htpl : List.lookup key registry = some tpl)
    (hchat : chat (chat_request (tpl.render txt)) = Except.ok resp)
    (hch : resp.choices = []) :
    (process_prompt registry chat pdfs document_file key).2 =
      Except.error Err.indexOutOfRange ∧
    (process_prompt registry chat pdfs document_file key).2 ≠
      Except.error Err.classificationFailed := by
  have h1 : (process_prompt registry chat pdfs document_file key).2 =
      Except.error Err.indexOutOfRange := by
    simp [process_prompt, hext, htpl, hchat, hch]
  refine ⟨h1, ?_⟩
  rw [h1]
  intro hc
  injection hc with hc2
  exact Err.noConfusion hc2

/-- C9 witness: a stub client answering with zero candidates produces the
index-out-of-range fault. -/
theorem C9_empty_candidates_witness :
    (process_prompt PROMPT_TEMPLATES (fun _ => Except.ok ⟨[]⟩)
      [("a.pdf", some ["x"])] (some ⟨"a.pdf"⟩) "3a1").2 =
      Except.error Err.indexOutOfRange ∧
    (process_prompt PROMPT_TEMPLATES (fun _ => Except.ok ⟨[]⟩)
      [("a.pdf", some ["x"])] (some ⟨"a.pdf"⟩) "3a1").2 ≠
      Except.error Err.classificationFailed :=
  C9_empty_candidates PROMPT_TEMPLATES (fun _ => Except.ok ⟨[]⟩)
    [("a.pdf", some ["x"])] (some ⟨"a.pdf"⟩) "3a1" "x" [Event.extract "a.pdf"]
    tpl_3a1 ⟨[]⟩ rfl rfl rfl rfl

/-- C10: with a supplied file and an unsupported key, the PDF extraction is
still performed — the trace of the run is exactly the extraction event, so it comes
before any validation — the chat request is never sent, and whenever the
extraction itself succeeded the error raised is the unsupported-characteristic
one (strictly before any Classification Client call). -/
theorem C10_extract_before_validation (registry : List (String × Template))
    (chat : ChatRequest → Except Unit ChatResponse)
    (pdfs : List (String × Option (List String)))
    (f : Document) (key : String)
    (hkey : List.lookup key registry = none) :
    (process_prompt registry chat pdfs (some f) key).1 = [Event.extract f.name] ∧
    (∀ req, Event.clientCall req ∉ (process_prompt registry chat pdfs (some f) key).1) ∧
    (∀ txt, (extract_document_text pdfs (some f)).2 = Except.ok txt →
      (process_prompt registry chat pdfs (some f) key).2 =
        Except.error (Err.unsupportedCharacteristic key)) := by
  rcases he : extract_document_text pdfs (some f) with ⟨evs, r⟩
  have hevs : evs = [Event.extract f.name] := by
    have h2 := extract_trace_some pdfs f
    rw [he] at h2
    exact h2
  subst hevs
  have htrace : (process_prompt registry chat pdfs (some f) key).1 =
      [Event.extract f.name] := by
    unfold process_prompt
    rw [he]
    cases r with
    | error e => rfl
    | ok d => rw [hkey]
  refine ⟨htrace, ?_, ?_⟩
  · intro req
    rw [htrace]
    simp
  · intro txt hext
    unfold process_prompt
    rw [he]
    cases r with
    | error e => simp at hext
    | ok d => simp [hkey]

/-- C10 witness: the unregistered key `zzz` with a parseable supplied file. -/
theorem C10_extract_before_validation_witness :
    (process_prompt PROMPT_TEMPLATES (fun _ => Except.error ())
      [("a.pdf", some ["x"])] (some ⟨"a.pdf"⟩) "zzz").1 = [Event.extract "a.pdf"] ∧
    (∀ req, Event.clientCall req ∉
      (process_prompt PROMPT_TEMPLATES (fun _ => Except.error ())
        [("a.pdf", some ["x"])] (some ⟨"a.pdf"⟩) "zzz").1) ∧
    (∀ txt, (extract_document_text [("a.pdf", some ["x"])] (some ⟨"a.pdf"⟩)).2 =
        Except.ok txt →
      (process_prompt PROMPT_TEMPLATES (fun _ => Except.error ())
        [("a.pdf", some ["x"])] (some ⟨"a.pdf"⟩) "zzz").2 =
        Except.error (Err.unsupportedCharacteristic "zzz")) :=
  C10_extract_before_validation PROMPT_TEMPLATES (fun _ => Except.error ())
    [("a.pdf", some ["x"])] ⟨"a.pdf"⟩ "zzz" rfl

end FileClassification
